import Mathlib

/-!
Verification of the Omniscience oracle repository: a shallow embedding of
the odds parsing pipeline (src/parser/odds_parser.py), the configuration
(src/config/settings.py), the indicator engine (src/parser/ta/ta_engine.py),
the recommendation engine (src/engine/recommendations.py) and the series
buffer push (src/app.py), together with theorems settling the frozen claims.

Python floats are modelled as exact rationals; Python ints as integers.
Optional values are modelled with Option; a Python exception escaping a
function is modelled with Except.
-/

set_option autoImplicit false

namespace Omniscience

/-! ### Python-level primitives -/

/-- Model of a Python exception escaping a call.  The only exception the
claims exercise is AttributeError (attribute lookup failure on the config
object). -/
inductive PyError where
  | attributeError (name : String)
deriving DecidableEq, Repr

/-- Model of the Python slice buf[-n:] for n greater than 0: the last n
elements.  Python treats buf[-0:] as the whole list, hence the n = 0 case. -/
def pyTakeLast {α : Type} (n : Nat) (l : List α) : List α :=
  if n = 0 then l else l.drop (l.length - n)

/-- Splits a character list at every character satisfying the predicate
(the separators are dropped; empty groups are kept). -/
def splitOnPred (p : Char → Bool) : List Char → List (List Char)
  | [] => [[]]
  | c :: rest =>
    if p c then [] :: splitOnPred p rest
    else
      match splitOnPred p rest with
      | [] => [[c]]
      | g :: gs => (c :: g) :: gs

/-- Model of Python str.strip: remove leading and trailing whitespace. -/
def pyStrip (s : String) : String :=
  String.mk (((s.data.dropWhile Char.isWhitespace).reverse.dropWhile
    Char.isWhitespace).reverse)

/-- Model of Python str.splitlines for inputs using newline separators
(consumers filter out blank pieces, so the trailing-empty-piece difference
from Python is immaterial). -/
def pySplitlines (s : String) : List String :=
  (splitOnPred (fun c => c = '\n') s.data).map String.mk

/-- Model of Python str.split() with no argument: split on whitespace runs,
dropping empty pieces. -/
def splitWs (s : String) : List String :=
  ((splitOnPred Char.isWhitespace s.data).filter (fun g => g ≠ [])).map String.mk

/-- Numeric value of one decimal digit character. -/
def digitVal (c : Char) : Nat := c.toNat - '0'.toNat

/-- Value of a list of decimal digit characters read left to right. -/
def digitsVal (cs : List Char) : Nat :=
  cs.foldl (fun acc c => 10 * acc + digitVal c) 0

/-- Splits a character list into its longest decimal-digit prefix and the
rest (the span of Char.isDigit). -/
def spanDigits : List Char → List Char × List Char
  | [] => ([], [])
  | c :: cs =>
    if c.isDigit then (c :: (spanDigits cs).1, (spanDigits cs).2)
    else ([], c :: cs)

/-- Model of re.search applied with the pattern of one optional minus sign
followed by one or more digits (the pattern used by the token sanitizer in
odds_parser.py): the first such match in the character list, as an integer. -/
def reSearchInt : List Char → Option Int
  | [] => none
  | c :: rest =>
    if c.isDigit then
      some (Int.ofNat (digitsVal (c :: (spanDigits rest).1)))
    else if c = '-' ∧ (rest.headD ' ').isDigit then
      some (-(Int.ofNat (digitsVal (spanDigits rest).1)))
    else
      reSearchInt rest

/-- Reads a decimal literal starting at a digit: integer digits, an optional
dot, then further digits (possibly none), as in the point-value pattern. -/
def parseDecFrom (cs : List Char) : Rat :=
  let p := spanDigits cs
  let intPart : Rat := (digitsVal p.1 : Rat)
  match p.2 with
  | '.' :: rest =>
    let q := spanDigits rest
    intPart + (digitsVal q.1 : Rat) / ((10 : Rat) ^ q.1.length)
  | _ => intPart

/-- Model of re.search applied with the decimal pattern of an optional minus
sign, digits, an optional dot and trailing digits (the pattern used by the
point-value extractor in odds_parser.py). -/
def reSearchDec : List Char → Option Rat
  | [] => none
  | c :: rest =>
    if c.isDigit then
      some (parseDecFrom (c :: rest))
    else if c = '-' ∧ (rest.headD ' ').isDigit then
      some (-(parseDecFrom rest))
    else
      reSearchDec rest

/-- Worker for findallSignedInt below, recursing on a fuel counter. -/
def findallSignedIntAux : Nat → List Char → List String
  | 0, _ => []
  | _ + 1, [] => []
  | fuel + 1, c :: rest =>
    if c.isDigit then
      String.mk (c :: (spanDigits rest).1) :: findallSignedIntAux fuel (spanDigits rest).2
    else if (c = '+' ∨ c = '-') ∧ (rest.headD ' ').isDigit then
      String.mk (c :: (spanDigits rest).1) :: findallSignedIntAux fuel (spanDigits rest).2
    else
      findallSignedIntAux fuel rest

/-- Model of re.findall applied with the pattern of an optional sign followed
by digits (the moneyline pattern in the 5-line grammar): the list of matched
substrings in order.  The fuel argument makes the recursion structural;
every step consumes at least one character while spending exactly one unit
of fuel, so fuel equal to the length never runs out. -/
def findallSignedInt (cs : List Char) : List String :=
  findallSignedIntAux cs.length cs

/-! ### Configuration (src/config/settings.py) -/

/-- Embedding of the Config class attributes. -/
structure Config where
  ignore_header_rows : Bool
  parse_5_line_blocks : Bool
  parse_4_line_blocks : Bool
  strong_confidence_threshold : Rat
  min_confidence_for_action : Rat
  lmf_horizons : List Nat
  default_history_len : Nat
  rsi_period : Nat
  zscore_lookback : Nat
  bollinger_lookback : Nat
  atr_lookback : Nat
  kelly_fraction_cap : Rat
deriving DecidableEq

/-- The config singleton from settings.py. -/
def config : Config :=
  { ignore_header_rows := true
    parse_5_line_blocks := true
    parse_4_line_blocks := true
    strong_confidence_threshold := 4/5
    min_confidence_for_action := 11/20
    lmf_horizons := [30, 60, 90]
    default_history_len := 300
    rsi_period := 14
    zscore_lookback := 20
    bollinger_lookback := 20
    atr_lookback := 14
    kelly_fraction_cap := 1/5 }

/-- Model of Python getattr on a Config object for boolean attributes: the
attributes the class defines resolve to their values, any other name fails
(AttributeError).  Config defines parse_4_line_blocks but no attribute named
parse_4line_blocks. -/
def getBoolAttr (c : Config) (name : String) : Option Bool :=
  if name = "ignore_header_rows" then some c.ignore_header_rows
  else if name = "parse_5_line_blocks" then some c.parse_5_line_blocks
  else if name = "parse_4_line_blocks" then some c.parse_4_line_blocks
  else none

/-! ### Odds math helpers (OmniscienceDataParser static methods) -/

/-- Embedding of _sanitize_int_token: strip, empty to null, the sentinel
even to 100, delete plus signs, then search the first signed-integer
pattern. -/
def sanitize_int_token (tok : Option String) : Option Int :=
  match tok with
  | none => none
  | some t =>
    let s := pyStrip t
    if s.data = [] then none
    else if s.data.map Char.toLower = ['e', 'v', 'e', 'n'] then some 100
    else reSearchInt (s.data.filter (fun c => c ≠ '+'))

/-- Core of _american_to_prob_raw on a present int: positive odds map to
100/(odds+100), otherwise |odds|/(|odds|+100). -/
def rawProb (odds : Int) : Rat :=
  if 0 < odds then 100 / ((odds : Rat) + 100)
  else (-(odds : Rat)) / ((-(odds : Rat)) + 100)

/-- Embedding of _american_to_prob_raw. -/
def american_to_prob_raw : Option Int → Option Rat
  | none => none
  | some o => some (rawProb o)

/-- Embedding of _normalize_two_way.  An absent side contributes a raw
probability of 0.0; the Python expression (x or 0.0) is the identity on
a float x and is folded away. -/
def normalize_two_way (a_odds b_odds : Option Int) : Option Rat × Option Rat :=
  if a_odds = none ∧ b_odds = none then (none, none)
  else
    let a_raw : Rat := match a_odds with | some x => rawProb x | none => 0
    let b_raw : Rat := match b_odds with | some x => rawProb x | none => 0
    let total := a_raw + b_raw
    if total = 0 then
      if b_odds = none then (some a_raw, none) else (none, some b_raw)
    else
      (some (a_raw / total), some (b_raw / total))

/-- Embedding of _calc_opposite_vig. -/
def calc_opposite_vig : Option Int → Option Int
  | none => none
  | some vig => some (-220 - vig)

/-- Embedding of _extract_point_value. -/
def extract_point_value (token : Option String) : Option Rat :=
  match token with
  | none => none
  | some t => reSearchDec t.data

/-! ### Parsed records and the two grammars (odds_parser.py) -/

/-- Fields written by _parse_5line.  The parsed_at wall-clock timestamp is
omitted: it is an effectful datetime read that no claim concerns. -/
structure Record5 where
  game_id : String
  date : String
  time : String
  favorite_team : String
  spread_points : Option Rat
  favorite_ip_raw : Option Rat
  dog_ip_raw : Option Rat
  spread_vig : Option Int
  spread_vig_opp : Option Int
  total_points : Option Rat
  total_side : Option String
  over_ip_raw : Option Rat
  under_ip_raw : Option Rat
  total_vig : Option Int
  total_vig_opp : Option Int
  away_ml : Option Int
  home_ml : Option Int
  away_ml_ip_raw : Option Rat
  home_ml_ip_raw : Option Rat
deriving DecidableEq

/-- Fields written by _parse_4line (parsed_at omitted as in Record5).  The
runline normalized pair computed on line 201 of the source is discarded and
never stored, so it has no field here. -/
structure Record4 where
  game_id : String
  date : String
  time : String
  away_ml : Option Int
  home_ml : Option Int
  away_ml_ip_raw : Option Rat
  home_ml_ip_raw : Option Rat
  total_points : Option Rat
  total_vig : Option Int
  total_vig_opp : Option Int
  over_ip_raw : Option Rat
  under_ip_raw : Option Rat
  runline_points : Option Rat
  runline_vig : Option Int
  runline_vig_opp : Option Int
deriving DecidableEq

/-- A parse result row: the two grammars emit differently shaped dicts. -/
inductive ParsedRecord where
  | five (r : Record5)
  | four (r : Record4)
deriving DecidableEq

/-- Python str of an optional int, as interpolated into the 4-line game_id. -/
def pyStrOptInt : Option Int → String
  | none => "None"
  | some n => toString n

/-- Embedding of _parse_5line.  Out-of-range block indexing raises IndexError
in Python and is converted to None by the catch-all, which the initial match
models; the body itself is total. -/
def parse5line (block : List String) : Option Record5 :=
  match block.get? 0, block.get? 1, block.get? 2, block.get? 3, block.get? 4 with
  | some line0, some line1, some line2, some line3, some line4 =>
    let t1 := splitWs line0
    if t1.length < 4 then none
    else
      let date_token := t1.getD 0 ""
      let time_token := t1.getD 1 ""
      let favorite_team := t1.getD 2 ""
      let spread_points := extract_point_value (some (t1.getD 3 ""))
      let spread_vig := sanitize_int_token (some (pyStrip line1))
      let spread_vig_opp := calc_opposite_vig spread_vig
      let fav_dog := normalize_two_way spread_vig spread_vig_opp
      let total_token := pyStrip line2
      let tchars := total_token.data
      let c0 := (tchars.headD ' ').toLower
      let sided := 2 ≤ tchars.length ∧ (c0 = 'o' ∨ c0 = 'u')
      let total_side : Option String :=
        if sided then some (if c0 = 'o' then "over" else "under") else none
      let total_points :=
        if sided then extract_point_value (some (String.mk tchars.tail))
        else extract_point_value (some total_token)
      let total_vig := sanitize_int_token (some line3)
      let total_vig_opp := calc_opposite_vig total_vig
      let over_under := normalize_two_way total_vig total_vig_opp
      let ml_matches := findallSignedInt line4.data
      let away_ml :=
        match ml_matches.get? 0 with
        | some m => sanitize_int_token (some m)
        | none => none
      let home_ml :=
        match ml_matches.get? 1 with
        | some m => sanitize_int_token (some m)
        | none => none
      let away_home := normalize_two_way away_ml home_ml
      some
        { game_id := date_token ++ "|" ++ time_token ++ "|" ++ favorite_team
          date := date_token
          time := time_token
          favorite_team := favorite_team
          spread_points := spread_points
          favorite_ip_raw := fav_dog.1
          dog_ip_raw := fav_dog.2
          spread_vig := spread_vig
          spread_vig_opp := spread_vig_opp
          total_points := total_points
          total_side := total_side
          over_ip_raw := over_under.1
          under_ip_raw := over_under.2
          total_vig := total_vig
          total_vig_opp := total_vig_opp
          away_ml := away_ml
          home_ml := home_ml
          away_ml_ip_raw := away_home.1
          home_ml_ip_raw := away_home.2 }
  | _, _, _, _, _ => none

/-- Embedding of _parse_4line, analogous to parse5line. -/
def parse4line (block : List String) : Option Record4 :=
  match block.get? 0, block.get? 1, block.get? 2, block.get? 3 with
  | some line0, some line1, some line2, some line3 =>
    let t1 := splitWs line0
    if t1.length < 5 then none
    else
      let date_token := t1.getD 0 ""
      let time_token := t1.getD 1 ""
      let away_ml := sanitize_int_token (some (t1.getD 2 ""))
      let home_ml := sanitize_int_token (some (t1.getD 3 ""))
      let away_home := normalize_two_way away_ml home_ml
      let total_points := extract_point_value (some (t1.getD 4 ""))
      let total_vig := sanitize_int_token (some line1)
      let total_vig_opp := calc_opposite_vig total_vig
      let over_under := normalize_two_way total_vig total_vig_opp
      let rtokens := splitWs line2
      let runline_points :=
        if 2 ≤ rtokens.length then extract_point_value (some (rtokens.getD 1 ""))
        else none
      let runline_vig := sanitize_int_token (some line3)
      let runline_vig_opp := calc_opposite_vig runline_vig
      some
        { game_id :=
            date_token ++ "|" ++ time_token ++ "|" ++ pyStrOptInt away_ml ++ "|" ++
              pyStrOptInt home_ml
          date := date_token
          time := time_token
          away_ml := away_ml
          home_ml := home_ml
          away_ml_ip_raw := away_home.1
          home_ml_ip_raw := away_home.2
          total_points := total_points
          total_vig := total_vig
          total_vig_opp := total_vig_opp
          over_ip_raw := over_under.1
          under_ip_raw := over_under.2
          runline_points := runline_points
          runline_vig := runline_vig
          runline_vig_opp := runline_vig_opp }
  | _, _, _, _ => none

/-! ### Feed parsing (parse_feed) -/

/-- Embedding of the block-grouping loop of parse_feed: lines are appended
to a current group; after each append the expected size is computed from the
mode (or, in auto mode, from the toggles and the current length) and the
group is flushed when it reaches that size.  A trailing group of 4 or 5
lines is kept. -/
def groupBlocks (cfg : Config) (block_type : String) :
    List String → List String → List (List String)
  | cur, [] => if cur ≠ [] ∧ (cur.length = 4 ∨ cur.length = 5) then [cur] else []
  | cur, ln :: rest =>
    let cur2 := cur ++ [ln]
    let expect : Option Nat :=
      if block_type = "5line" then some 5
      else if block_type = "4line" then some 4
      else if 5 ≤ cur2.length ∧ cfg.parse_5_line_blocks then some 5
      else if 4 ≤ cur2.length ∧ cfg.parse_4_line_blocks then some 4
      else none
    match expect with
    | some e =>
      if cur2.length = e then cur2 :: groupBlocks cfg block_type [] rest
      else groupBlocks cfg block_type cur2 rest
    | none => groupBlocks cfg block_type cur2 rest

/-- The attribute name the dispatch of parse_feed reads on line 106 of
odds_parser.py: it lacks the second underscore of the Config attribute
parse_4_line_blocks. -/
def missingAttr : String := "parse_4line_blocks"

/-- Embedding of the per-block dispatch inside parse_feed.  A 5-line block
with the 5-line grammar enabled maps through parse5line.  A 4-line block
evaluates self.cfg.parse_4line_blocks — an attribute Config does not define
(settings.py defines parse_4_line_blocks), so the lookup raises
AttributeError.  Any other block yields no row. -/
def mapBlock (cfg : Config) (b : List String) : Except PyError (Option ParsedRecord) :=
  if b.length = 5 ∧ cfg.parse_5_line_blocks then
    Except.ok ((parse5line b).map ParsedRecord.five)
  else if b.length = 4 then
    match getBoolAttr cfg missingAttr with
    | none => Except.error (PyError.attributeError missingAttr)
    | some flag =>
      if flag then Except.ok ((parse4line b).map ParsedRecord.four) else Except.ok none
  else Except.ok none

/-- Embedding of parse_feed: strip and drop blank lines, optionally drop the
header line, group the rest into blocks, then map each block in order; a
block mapping to None contributes nothing, and an exception raised while
mapping a block propagates out of the call. -/
def parse_feed (cfg : Config) (text_feed : String) (block_type : String) :
    Except PyError (List ParsedRecord) :=
  let lines := ((pySplitlines text_feed).map pyStrip).filter (fun l => l.data ≠ [])
  if lines = [] then Except.ok []
  else
    let start_idx := if cfg.ignore_header_rows then 1 else 0
    let blocks := groupBlocks cfg block_type [] (lines.drop start_idx)
    blocks.foldlM
      (fun acc b =>
        (mapBlock cfg b).map (fun p => match p with | some r => acc ++ [r] | none => acc))
      []

/-! ### Indicator engine (ta_engine.py): the functions the claims exercise -/

/-- Model of np.mean on a list (the empty case never arises on the guarded
paths below). -/
def mean (l : List Rat) : Rat := l.sum / (l.length : Rat)

/-- Model of np.diff: successive differences. -/
def diffs : List Rat → List Rat
  | [] => []
  | [_] => []
  | a :: b :: rest => (b - a) :: diffs (b :: rest)

/-- Population variance, the square of np.std. -/
def variance (l : List Rat) : Rat := mean (l.map (fun x => (x - mean l) ^ 2))

/-- Floor of the square root of a nonnegative rational.  For x = n/d in
lowest terms, sqrt x = sqrt (n * d) / d and the floor commutes with the
integer division. -/
def floorSqrtQ (x : Rat) : Nat := Nat.sqrt (x.num.toNat * x.den) / x.den

/-- Embedding of rsi_from_ips. -/
def rsi_from_ips (values : List Rat) (period : Nat) : Option Rat :=
  if values.length < period + 1 then none
  else
    let deltas := diffs values
    let gains := deltas.map (fun d => if 0 < d then d else 0)
    let losses := deltas.map (fun d => if d < 0 then -d else 0)
    let avg_gain := mean (pyTakeLast period gains)
    let avg_loss := mean (pyTakeLast period losses)
    if avg_loss = 0 then some 100
    else
      let rs := avg_gain / avg_loss
      some (100 - 100 / (1 + rs))

/-- Embedding of adaptive_ma.  The efficiency branch computes
eff = direction / (std * sqrt base) and then truncates
(max - base) * eff * sensitivity to an integer; with the source defaults the
truncated quantity is nonnegative, and it equals the floor of the square
root of its square, which is how the irrational intermediate is expressed
exactly over the rationals:
int((max - base) * eff * sens) = floorSqrtQ (((max - base) * sens * direction)^2 / (base * vol2))
where vol2 is the variance (std squared). -/
def adaptive_ma (values : List Rat) (base_period max_period : Nat)
    (sensitivity : Rat) : Option Rat :=
  if values = [] then none
  else if values.length < base_period then some (mean values)
  else
    let vol2 := variance (pyTakeLast base_period values)
    let k : Nat :=
      if vol2 = 0 then 0
      else
        let direction :=
          |values.getD (values.length - 1) 0 - values.getD (values.length - base_period) 0|
        floorSqrtQ
          ((((max_period : Rat) - (base_period : Rat)) * sensitivity * direction) ^ 2 /
            ((base_period : Rat) * vol2))
    let adaptive_period := max base_period (min max_period (base_period + k))
    some (mean (pyTakeLast adaptive_period values))

/-! ### Recommendation engine (recommendations.py) -/

/-- Shape of the momentum sub-dict consumed by the recommendation engine. -/
structure Momentum where
  MOM_V : Option Rat
  MOM_A : Option Rat
deriving DecidableEq

/-- Shape of the steam_detection sub-dict consumed by the recommendation
engine; confidence defaults to 0.0 when the key is missing, which is folded
into the field. -/
structure SteamDetection where
  steam : Bool
  confidence : Rat
deriving DecidableEq

/-- One market entry of the ta_indicators argument.  none on a sub-field
covers both a missing key and a falsy (None or empty-dict) value, which the
source treats alike through its truthiness guards. -/
structure MarketIndicators where
  momentum : Option Momentum
  steam_detection : Option SteamDetection
deriving DecidableEq

/-- The ta_indicators argument: the three market keys the engine reads.
none covers a missing key and a falsy value. -/
structure TAIndicators where
  spread : Option MarketIndicators
  away_ml : Option MarketIndicators
  home_ml : Option MarketIndicators
deriving DecidableEq

/-- One forecast dict: projected_point_move may be absent; confidence
defaults to 0.0 when missing. -/
structure Forecast where
  projected_point_move : Option Rat
  confidence : Rat
deriving DecidableEq

/-- The game_row argument, reduced to the one key the engine reads. -/
structure GameRow where
  game_id : Option String
deriving DecidableEq

/-- Output record of generate_recommendation.  The narrative display
strings, the triggered-indicator tag list, the echoed indicator snapshot
and the wall-clock timestamp are presentation fields no claim concerns and
are omitted. -/
structure Recommendation where
  game_id : Option String
  action : String
  confidence : Rat
  expected_value : Rat
  kelly_stake : Rat
deriving DecidableEq

/-- Model of np.sign on a float. -/
def pysign (v : Rat) : Rat := if 0 < v then 1 else if v < 0 then -1 else 0

/-- Spread contribution to the score: the momentum term uses
mom_v = mom.get of MOM_V when the momentum dict is truthy, else the float
0.0 (which then contributes sign 0 times a clamp, that is 0); the steam term
adds 0.3 times the steam confidence when steam is flagged. -/
def spreadScore (ta : TAIndicators) : Rat :=
  match ta.spread with
  | none => 0
  | some s =>
    let mom_v : Option Rat :=
      match s.momentum with
      | none => some 0
      | some m => m.MOM_V
    let momPart : Rat :=
      match mom_v with
      | none => 0
      | some v => pysign v * min (1/2) (|v| * 100)
    let steamPart : Rat :=
      match s.steam_detection with
      | none => 0
      | some st => if st.steam then (3/10) * st.confidence else 0
    momPart + steamPart

/-- Moneyline contribution for one side: momv is the float 0.0 when the
momentum dict is falsy, else MOM_V; a truthy (present and nonzero) momv adds
sign times min(0.4, abs times 120). -/
def mlScore : Option MarketIndicators → Rat
  | none => 0
  | some t =>
    let momv : Option Rat :=
      match t.momentum with
      | none => some 0
      | some m => m.MOM_V
    match momv with
    | none => 0
    | some v => if v ≠ 0 then pysign v * min (2/5) (|v| * 120) else 0

/-- Forecast contribution: each truthy forecast whose projected point move
is truthy with absolute value above 0.3 and whose confidence exceeds 0.6
adds 0.2 times the sign of the move. -/
def forecastScore (forecasts : List (Option Forecast)) : Rat :=
  (forecasts.map (fun f =>
    match f with
    | none => 0
    | some fc =>
      match fc.projected_point_move with
      | none => 0
      | some pm =>
        if pm ≠ 0 ∧ 3/10 < |pm| ∧ 3/5 < fc.confidence then (1/5) * pysign pm
        else 0)).sum

/-- Total score accumulated by generate_recommendation before clamping. -/
def rec_score (ta : TAIndicators) (forecasts : List (Option Forecast)) : Rat :=
  spreadScore ta + mlScore ta.away_ml + mlScore ta.home_ml + forecastScore forecasts

/-- The two sequential clamping ifs applied to 0.5 + score. -/
def clampConfidence (c0 : Rat) : Rat :=
  let c1 := if 19/20 < c0 then (19/20 : Rat) else c0
  if c1 < 1/20 then (1/20 : Rat) else c1

/-- Embedding of generate_recommendation. -/
def generate_recommendation (cfg : Config) (game_row : GameRow)
    (ta : TAIndicators) (forecasts : List (Option Forecast)) : Recommendation :=
  let score := rec_score ta forecasts
  let confidence := clampConfidence (1/2 + score)
  let action :=
    if cfg.strong_confidence_threshold ≤ confidence then "Back"
    else if confidence ≤ cfg.min_confidence_for_action - 1/10 then "Fade"
    else "Hold"
  let ev := (confidence - 1/2) * (12/100)
  let kelly := max 0 (min cfg.kelly_fraction_cap (ev / (5/100)))
  { game_id := game_row.game_id
    action := action
    confidence := confidence
    expected_value := ev
    kelly_stake := kelly }

/-! ### Series buffer push (app.py) -/

/-- One buffered observation, as appended by the push closure in app.py. -/
structure SeriesPoint where
  ip : Rat
  point : Option Rat
  ts : String
deriving DecidableEq

/-- Embedding of the buffer update in push: append the point, then if the
length exceeds the cap keep only the last cap entries (buf[-cap:]). -/
def pushPoint (cap : Nat) (buf : List SeriesPoint) (p : SeriesPoint) : List SeriesPoint :=
  let buf2 := buf ++ [p]
  if cap < buf2.length then pyTakeLast cap buf2 else buf2

/-! ### Concrete inputs used by the theorems -/

/-- The 5-line block of the testable-properties example. -/
def exampleBlock : List String :=
  ["01/01 7:00pm TeamA -3.5", "-110", "o45.5", "-110", "-150 +130"]

/-- A feed whose header line is followed by one 4-line block. -/
def feed4 : String := "h\nA\nB\nC\nD"

/-- The 4line parser mode string offered by the app sidebar. -/
def mode4line : String := "4line"

/-- A configuration identical to the singleton except that the 4-line
grammar is disabled. -/
def cfgNo4 : Config := { config with parse_4_line_blocks := false }

/-- Indicator sets carrying a spread MOM_V of 0.01 and nothing else. -/
def taSpreadOnly : TAIndicators :=
  { spread :=
      some
        { momentum := some { MOM_V := some (1/100), MOM_A := none }
          steam_detection := none }
    away_ml := none
    home_ml := none }

/-- A game row with no game_id. -/
def gameRowNone : GameRow := { game_id := none }

/-! ## Shared lemmas -/

theorem rawProb_nonneg (o : Int) : 0 ≤ rawProb o := by
  unfold rawProb
  split_ifs with h
  · have ho : (0 : Rat) < (o : Rat) := by exact_mod_cast h
    apply div_nonneg (by norm_num) (by linarith)
  · have ho : (o : Rat) ≤ 0 := by exact_mod_cast not_lt.1 h
    apply div_nonneg (by linarith) (by linarith)

theorem rawProb_pos {o : Int} (h : o ≠ 0) : 0 < rawProb o := by
  unfold rawProb
  split_ifs with hpos
  · have ho : (0 : Rat) < (o : Rat) := by exact_mod_cast hpos
    apply div_pos (by norm_num) (by linarith)
  · have hlt : o < 0 := lt_of_le_of_ne (not_lt.1 hpos) h
    have ho : (o : Rat) < 0 := by exact_mod_cast hlt
    apply div_pos (by linarith) (by linarith)

theorem normalize_two_way_some_some (a b : Int) :
    normalize_two_way (some a) (some b) =
      if rawProb a + rawProb b = 0 then (none, some (rawProb b))
      else
        (some (rawProb a / (rawProb a + rawProb b)),
          some (rawProb b / (rawProb a + rawProb b))) := by
  simp [normalize_two_way]

theorem normalize_two_way_some_none (a : Int) :
    normalize_two_way (some a) none =
      if rawProb a = 0 then (some (rawProb a), none)
      else (some (rawProb a / rawProb a), some (0 / rawProb a)) := by
  simp [normalize_two_way]

theorem normalize_two_way_none_some (b : Int) :
    normalize_two_way none (some b) =
      if rawProb b = 0 then (none, some (rawProb b))
      else (some (0 / rawProb b), some (rawProb b / rawProb b)) := by
  simp [normalize_two_way]

theorem mem_pyTakeLast {α : Type} {n : Nat} {l : List α} {x : α}
    (h : x ∈ pyTakeLast n l) : x ∈ l := by
  unfold pyTakeLast at h
  split at h
  · exact h
  · exact List.mem_of_mem_drop h

theorem mean_nonneg {l : List Rat} (h : ∀ x ∈ l, 0 ≤ x) : 0 ≤ mean l := by
  unfold mean
  exact div_nonneg (List.sum_nonneg h) (by positivity)

theorem clampConfidence_bounds (c : Rat) :
    1/20 ≤ clampConfidence c ∧ clampConfidence c ≤ 19/20 := by
  simp only [clampConfidence]
  split_ifs <;> constructor <;> linarith

theorem foldl_pushPoint (C : Nat) (hC : 0 < C) :
    ∀ (xs acc : List SeriesPoint), acc.length ≤ C →
      xs.foldl (pushPoint C) acc = (acc ++ xs).drop (acc.length + xs.length - C) := by
  intro xs
  induction xs with
  | nil =>
    intro acc h
    simp [Nat.sub_eq_zero_of_le h]
  | cons x t ih =>
    intro acc h
    rw [List.foldl_cons]
    by_cases hfull : C < acc.length + 1
    · have hacc : acc.length = C := by omega
      have hpush : pushPoint C acc x = (acc ++ [x]).drop 1 := by
        unfold pushPoint pyTakeLast
        rw [if_pos (by simp; omega), if_neg (by omega)]
        simp [hacc]
      rw [hpush]
      have hlen : ((acc ++ [x]).drop 1).length ≤ C := by simp; omega
      rw [ih _ hlen]
      have hsplit : (acc ++ [x]).drop 1 ++ t = ((acc ++ [x]) ++ t).drop 1 :=
        (List.drop_append_of_le_length (by simp)).symm
      rw [hsplit, List.drop_drop]
      have h1 : ((acc ++ [x]).drop 1).length = acc.length := by simp
      congr 1
      · simp [h1, hacc]
        omega
      · simp
    · have hpush : pushPoint C acc x = acc ++ [x] := by
        unfold pushPoint
        rw [if_neg (by simp; omega)]
      rw [hpush]
      rw [ih _ (by simp; omega)]
      congr 1
      · simp
        omega
      · simp

/-! ## Claim theorems -/

/-- Claim C1 (code_bug evidence): the spec says parse_feed never raises and
silently drops failing blocks, but the dispatch for a 4-line block reads the
attribute parse_4line_blocks, which Config does not define (settings.py
spells it parse_4_line_blocks), so an AttributeError escapes the call: on
the feed feed4 in 4line mode, parse_feed raises instead of returning a
row list. -/
theorem c1_parse_feed_raises_attribute_error :
    parse_feed config feed4 mode4line =
      Except.error (PyError.attributeError missingAttr) := by
  rfl

/-- Claim C8 (code_bug evidence): a 4-line block whose line count matches no
enabled grammar (here the 4-line grammar is disabled in cfgNo4) should have
been dropped silently with zero rows per the spec, but the dispatch still
evaluates the misspelled attribute parse_4line_blocks before consulting the
toggle, so parse_feed raises AttributeError instead. -/
theorem c8_disabled_grammar_block_raises :
    parse_feed cfgNo4 feed4 mode4line =
      Except.error (PyError.attributeError missingAttr) := by
  rfl

/-- Claim C3: mapping the example 5-line block through the 5-line grammar
yields spread_points equal to minus 3.5, favorite_team TeamA, total_points
45.5, total_side over, away_ml minus 150, home_ml 130, and away and home
moneyline implied probabilities that sum to 1. -/
theorem c3_example_block_parses :
    ∃ r : Record5, parse5line exampleBlock = some r ∧
      r.spread_points = some (-(7/2)) ∧
      r.favorite_team = "TeamA" ∧
      r.total_points = some (91/2) ∧
      r.total_side = some "over" ∧
      r.away_ml = some (-150) ∧
      r.home_ml = some 130 ∧
      ∃ pa pb : Rat, r.away_ml_ip_raw = some pa ∧ r.home_ml_ip_raw = some pb ∧
        pa + pb = 1 := by
  refine
    ⟨{ game_id := "01/01|7:00pm|TeamA"
       date := "01/01"
       time := "7:00pm"
       favorite_team := "TeamA"
       spread_points := some (-(7/2))
       favorite_ip_raw := some (1/2)
       dog_ip_raw := some (1/2)
       spread_vig := some (-110)
       spread_vig_opp := some (-110)
       total_points := some (91/2)
       total_side := some "over"
       over_ip_raw := some (1/2)
       under_ip_raw := some (1/2)
       total_vig := some (-110)
       total_vig_opp := some (-110)
       away_ml := some (-150)
       home_ml := some 130
       away_ml_ip_raw := some (69/119)
       home_ml_ip_raw := some (50/119) },
      ?_, rfl, rfl, rfl, rfl, rfl, rfl, 69/119, 50/119, rfl, rfl, by norm_num⟩
  with_unfolding_all decide

/-- Claim C7: with the spread indicators reporting a MOM_V of 0.01 and no
other contributing signal, the score is 0.5, the clamped confidence is 0.95
and the action is Back. -/
theorem c7_spread_momentum_gives_back :
    rec_score taSpreadOnly [] = 1/2 ∧
      (generate_recommendation config gameRowNone taSpreadOnly []).confidence = 19/20 ∧
      (generate_recommendation config gameRowNone taSpreadOnly []).action = "Back" := by
  refine ⟨by with_unfolding_all decide, by with_unfolding_all decide, ?_⟩
  with_unfolding_all decide

/-- Claim C2 as frozen is refuted at the pair (0, 0): both sides are
non-null, yet the total of the raw probabilities is 0, the one-side-missing
fallback fires and the result is (null, 0.0) rather than two probabilities
summing to 1. -/
theorem c2_zero_pair_counterexample :
    normalize_two_way (some 0) (some 0) = (none, some 0) := by
  with_unfolding_all decide

/-- Claim C2 (amended): for every pair of American odds with both sides
non-null, unless both odds are the degenerate value 0, normalize_two_way
returns two probabilities whose sum is exactly 1; the symmetric pair of
minus 110 and minus 110 normalizes to exactly (0.5, 0.5). -/
theorem c2_two_sided_sum_one :
    (∀ a b : Int, ¬(a = 0 ∧ b = 0) →
      ∃ pa pb : Rat, normalize_two_way (some a) (some b) = (some pa, some pb) ∧
        pa + pb = 1) ∧
    normalize_two_way (some (-110)) (some (-110)) = (some (1/2), some (1/2)) := by
  constructor
  · intro a b hab
    have htot : 0 < rawProb a + rawProb b := by
      rcases not_and_or.1 hab with h | h
      · have h1 := rawProb_pos h
        have h2 := rawProb_nonneg b
        linarith
      · have h1 := rawProb_nonneg a
        have h2 := rawProb_pos h
        linarith
    refine ⟨rawProb a / (rawProb a + rawProb b), rawProb b / (rawProb a + rawProb b),
      ?_, ?_⟩
    · rw [normalize_two_way_some_some, if_neg htot.ne']
    · rw [div_add_div_same, div_self htot.ne']
  · with_unfolding_all decide

/-- Witness for c2_two_sided_sum_one at the moneyline pair of the example
block. -/
theorem c2_two_sided_sum_one_witness :
    ¬((-150 : Int) = 0 ∧ (130 : Int) = 0) ∧
      ∃ pa pb : Rat, normalize_two_way (some (-150)) (some 130) = (some pa, some pb) ∧
        pa + pb = 1 :=
  ⟨by decide, c2_two_sided_sum_one.1 (-150) 130 (by decide)⟩

/-- Claim C9 as frozen is refuted at odds minus 110 with the other side
null: the raw probability 11/21 of the present side is positive, so the
normalizing branch runs and returns (1.0, 0.0) — the present side normalized
against an absent 0, with 0.0 rather than null for the missing side. -/
theorem c9_single_sided_counterexample :
    normalize_two_way (some (-110)) none = (some 1, some 0) ∧
      normalize_two_way (some (-110)) none ≠ (some (11/21), none) := by
  constructor
  · with_unfolding_all decide
  · with_unfolding_all decide

/-- Claim C9 (amended): with exactly one side null, if the present odds are
nonzero the call returns probability 1 for the present side paired with 0
(not null) for the missing side; only when the present odds are 0 — so the
raw probability is 0 — does the fallback return the raw probability paired
with null. -/
theorem c9_single_sided_behavior :
    (∀ a : Int, a ≠ 0 →
      normalize_two_way (some a) none = (some 1, some 0) ∧
        normalize_two_way none (some a) = (some 0, some 1)) ∧
    normalize_two_way (some 0) none = (some 0, none) ∧
    normalize_two_way none (some 0) = (none, some 0) := by
  refine ⟨?_, by with_unfolding_all decide, by with_unfolding_all decide⟩
  intro a ha
  have hpos := rawProb_pos ha
  constructor
  · rw [normalize_two_way_some_none, if_neg hpos.ne', div_self hpos.ne',
      zero_div]
  · rw [normalize_two_way_none_some, if_neg hpos.ne', div_self hpos.ne',
      zero_div]

/-- Witness for c9_single_sided_behavior at odds 130. -/
theorem c9_single_sided_behavior_witness :
    (130 : Int) ≠ 0 ∧ normalize_two_way (some 130) none = (some 1, some 0) :=
  ⟨by decide, (c9_single_sided_behavior.1 130 (by decide)).1⟩

/-- Claim C6 as frozen is refuted at the one-element list: one sample is
fewer than the base of 10, yet adaptive_ma returns the mean of the list
(here 1) instead of the unavailable marker. -/
theorem c6_small_sample_counterexample :
    adaptive_ma [1] 10 30 2 = some 1 ∧ adaptive_ma [1] 10 30 2 ≠ none := by
  constructor
  · with_unfolding_all decide
  · with_unfolding_all decide

/-- Claim C6 (amended): only the empty list yields the unavailable marker;
every nonempty list with fewer than the base of 10 samples yields the
arithmetic mean of all its values, not null. -/
theorem c6_small_sample_mean (values : List Rat) (h1 : values ≠ [])
    (h2 : values.length < 10) : adaptive_ma values 10 30 2 = some (mean values) := by
  unfold adaptive_ma
  rw [if_neg h1, if_pos h2]

/-- Witness for c6_small_sample_mean at a two-element list. -/
theorem c6_small_sample_mean_witness :
    (([1, 2] : List Rat) ≠ [] ∧ ([1, 2] : List Rat).length < 10) ∧
      adaptive_ma [1, 2] 10 30 2 = some (mean [1, 2]) :=
  ⟨⟨by decide, by decide⟩, c6_small_sample_mean [1, 2] (by decide) (by decide)⟩

/-- Claim C4: after appending N points with cap C, where N exceeds C (and
the cap is positive, as is the configured default of 300), the buffer holds
exactly C points, namely the last C appended points in their original
order. -/
theorem c4_buffer_fifo (C : Nat) (xs : List SeriesPoint) (hC : 0 < C)
    (hN : C < xs.length) :
    (xs.foldl (pushPoint C) []).length = C ∧
      xs.foldl (pushPoint C) [] = pyTakeLast C xs := by
  have h := foldl_pushPoint C hC xs [] (by simp)
  simp only [List.nil_append, List.length_nil, Nat.zero_add] at h
  constructor
  · rw [h, List.length_drop]
    omega
  · rw [h, pyTakeLast, if_neg (by omega)]

/-- Witness for c4_buffer_fifo with cap 2 and three appended points. -/
theorem c4_buffer_fifo_witness :
    (0 < 2 ∧ 2 < ([⟨1, none, "a"⟩, ⟨2, none, "b"⟩, ⟨3, none, "c"⟩] : List SeriesPoint).length) ∧
      (([⟨1, none, "a"⟩, ⟨2, none, "b"⟩, ⟨3, none, "c"⟩] : List SeriesPoint).foldl
          (pushPoint 2) []).length = 2 ∧
        ([⟨1, none, "a"⟩, ⟨2, none, "b"⟩, ⟨3, none, "c"⟩] : List SeriesPoint).foldl
            (pushPoint 2) [] =
          pyTakeLast 2 [⟨1, none, "a"⟩, ⟨2, none, "b"⟩, ⟨3, none, "c"⟩] :=
  ⟨⟨by decide, by decide⟩,
    c4_buffer_fifo 2 [⟨1, none, "a"⟩, ⟨2, none, "b"⟩, ⟨3, none, "c"⟩]
      (by decide) (by decide)⟩

/-- Claim C5: for every game row, indicator set and forecast set, the
recommendation has an action among Back, Fade and Hold, a confidence in
[0.05, 0.95], an expected value equal to (confidence minus 0.5) times 0.12,
and a kelly stake in [0, 0.20] equal to the clamp of expected_value/0.05
between 0 and the 0.20 cap. -/
theorem c5_recommendation_invariants (g : GameRow) (ta : TAIndicators)
    (fs : List (Option Forecast)) :
    ((generate_recommendation config g ta fs).action = "Back" ∨
      (generate_recommendation config g ta fs).action = "Fade" ∨
      (generate_recommendation config g ta fs).action = "Hold") ∧
    1/20 ≤ (generate_recommendation config g ta fs).confidence ∧
    (generate_recommendation config g ta fs).confidence ≤ 19/20 ∧
    (generate_recommendation config g ta fs).expected_value =
      ((generate_recommendation config g ta fs).confidence - 1/2) * (12/100) ∧
    0 ≤ (generate_recommendation config g ta fs).kelly_stake ∧
    (generate_recommendation config g ta fs).kelly_stake ≤ 1/5 ∧
    (generate_recommendation config g ta fs).kelly_stake =
      max 0 (min (1/5)
        ((generate_recommendation config g ta fs).expected_value / (5/100))) := by
  have hb := clampConfidence_bounds (1/2 + rec_score ta fs)
  have hconf : (generate_recommendation config g ta fs).confidence =
      clampConfidence (1/2 + rec_score ta fs) := rfl
  have hact : (generate_recommendation config g ta fs).action =
      (if (4/5 : Rat) ≤ clampConfidence (1/2 + rec_score ta fs) then "Back"
        else if clampConfidence (1/2 + rec_score ta fs) ≤ 11/20 - 1/10 then "Fade"
        else "Hold") := rfl
  have hev : (generate_recommendation config g ta fs).expected_value =
      (clampConfidence (1/2 + rec_score ta fs) - 1/2) * (12/100) := rfl
  have hkelly : (generate_recommendation config g ta fs).kelly_stake =
      max 0 (min (1/5)
        ((clampConfidence (1/2 + rec_score ta fs) - 1/2) * (12/100) / (5/100))) := rfl
  refine ⟨?_, ?_, ?_, ?_, ?_, ?_, ?_⟩
  · rw [hact]
    split_ifs <;> simp
  · rw [hconf]
    exact hb.1
  · rw [hconf]
    exact hb.2
  · rw [hev, hconf]
  · rw [hkelly]
    exact le_max_left 0 _
  · rw [hkelly]
    exact max_le (by norm_num) (min_le_left _ _)
  · rw [hkelly, hev]

/-- Claim C10: rsi_from_ips with the period of 14 returns a value in
[0, 100] whenever at least 15 samples are supplied, and the unavailable
marker with fewer. -/
theorem c10_rsi_range (values : List Rat) :
    (15 ≤ values.length →
      ∃ r : Rat, rsi_from_ips values 14 = some r ∧ 0 ≤ r ∧ r ≤ 100) ∧
    (values.length < 15 → rsi_from_ips values 14 = none) := by
  constructor
  · intro h
    simp only [rsi_from_ips]
    rw [if_neg (by omega)]
    have hgain : 0 ≤ mean (pyTakeLast 14
        ((diffs values).map fun d => if 0 < d then d else 0)) := by
      apply mean_nonneg
      intro x hx
      obtain ⟨d, _, rfl⟩ := List.mem_map.1 (mem_pyTakeLast hx)
      split <;> simp_all
      linarith
    have hloss : 0 ≤ mean (pyTakeLast 14
        ((diffs values).map fun d => if d < 0 then -d else 0)) := by
      apply mean_nonneg
      intro x hx
      obtain ⟨d, _, rfl⟩ := List.mem_map.1 (mem_pyTakeLast hx)
      split <;> simp_all
      linarith
    split_ifs with h0
    · exact ⟨100, rfl, by norm_num, by norm_num⟩
    · set ag := mean (pyTakeLast 14
        ((diffs values).map fun d => if 0 < d then d else 0)) with hag
      set al := mean (pyTakeLast 14
        ((diffs values).map fun d => if d < 0 then -d else 0)) with hal
      have halpos : 0 < al := lt_of_le_of_ne hloss (Ne.symm h0)
      have hrs : 0 ≤ ag / al := div_nonneg hgain halpos.le
      have hden : (0 : Rat) < 1 + ag / al := by linarith
      refine ⟨100 - 100 / (1 + ag / al), rfl, ?_, ?_⟩
      · have hle : 100 / (1 + ag / al) ≤ 100 := by
          rw [div_le_iff₀ hden]
          nlinarith
        linarith
      · have hge : 0 < 100 / (1 + ag / al) := by positivity
        linarith
  · intro h
    simp only [rsi_from_ips]
    rw [if_pos (by omega)]

/-- Witness for c10_rsi_range at a constant 15-sample list and at a
2-sample list. -/
theorem c10_rsi_range_witness :
    (∃ r : Rat, rsi_from_ips (List.replicate 15 0) 14 = some r ∧ 0 ≤ r ∧ r ≤ 100) ∧
      rsi_from_ips [1, 2] 14 = none :=
  ⟨(c10_rsi_range (List.replicate 15 0)).1 (by simp),
    (c10_rsi_range [1, 2]).2 (by simp)⟩

end Omniscience
